import Mathlib

/-!
Shallow embedding of the OPC UA client manager
(`src/opcua/client.js`, class `OPCUAClientManager`).

JavaScript `Map`s are modelled as association lists preserving insertion
order; the external `node-opcua` session and client are modelled through an
environment (`Env`) of oracles giving the outcome of each fallible call.
Thrown JS errors are modelled as `Except String` values carrying the error
message; `try`/`catch` blocks are translated into the corresponding
branching on those outcomes. Value payloads carried by data values are
modelled opaquely as integers.
-/

namespace OpcuaClient

/-- A protocol status/quality code: whether `isGood()` holds, plus its
`toString()` rendering. -/
structure StatusCode where
  good : Bool
  text : String
deriving DecidableEq, Repr

/-- A data value returned by `session.read`: status code, payload, data-type
tag and server timestamp. -/
structure DataValue where
  statusCode : StatusCode
  value : Int
  dataType : String
  timestamp : Nat
deriving DecidableEq, Repr

/-- A cached latest value stored in a subscription entry
(`{value, dataType, timestamp}` in the source). -/
structure CachedValue where
  value : Int
  dataType : String
  timestamp : Nat
deriving DecidableEq, Repr

/-- Which `changed`-event closure was attached to the monitored item:
`subscribe` registers a log-only handler (client.js lines 382-385), while
`subscribeRegisteredNode` registers a handler that stores the new value into
the entry found under the subscription id (lines 770-784). -/
inductive ChangeHandler where
  | logOnly
  | storeLatest
deriving DecidableEq, Repr

/-- One entry of `this.subscriptions` (the value stored under a subscription
id). `subscribe` stores `{subscription, monitoredItem, nodeId}` (fields
`originalNodeId`/`isRegistered`/`latestValue` absent, read back as
`none`/`false`/`none`); `subscribeRegisteredNode` stores all fields. -/
structure SubEntry where
  nodeId : String
  originalNodeId : Option String
  isRegistered : Bool
  latestValue : Option CachedValue
  handler : ChangeHandler
deriving DecidableEq, Repr

/-- One entry of `this.registeredNodes`: original node id and registration
timestamp. -/
structure RegNodeInfo where
  originalNodeId : String
  registeredAt : Nat
deriving DecidableEq, Repr

/-- Connection configuration as passed to `connect`. -/
structure Config where
  endpoint : String
  securityPolicy : String
  securityMode : String
  authType : String
  username : String
  password : String
deriving DecidableEq, Repr

/-- The mutable fields of `OPCUAClientManager`. `this.client` and
`this.session` are object references in the source; only their nullness
drives control flow, so they are modelled as booleans. -/
structure ManagerState where
  hasClient : Bool
  hasSession : Bool
  isConnected : Bool
  connectionConfig : Option Config
  subscriptions : List (String × SubEntry)
  registeredNodes : List (String × RegNodeInfo)
deriving DecidableEq, Repr

/-- Association-list lookup, JS `Map.prototype.get`. -/
def lookupA {α : Type} : List (String × α) → String → Option α
  | [], _ => none
  | (k, v) :: rest, key => if k == key then some v else lookupA rest key

/-- Association-list insertion/update, JS `Map.prototype.set`: replace in
place if the key exists, else append. -/
def setA {α : Type} : List (String × α) → String → α → List (String × α)
  | [], key, v => [(key, v)]
  | (k, w) :: rest, key, v =>
    if k == key then (key, v) :: rest else (k, w) :: setA rest key v

/-- Association-list removal, JS `Map.prototype.delete`. -/
def removeA {α : Type} : List (String × α) → String → List (String × α)
  | [], _ => []
  | (k, w) :: rest, key =>
    if k == key then removeA rest key else (k, w) :: removeA rest key

/-- Whether the character list `s` starts with the character list `pat`. -/
def startsWithL : List Char → List Char → Bool
  | _, [] => true
  | [], _ :: _ => false
  | a :: as, b :: bs => a == b && startsWithL as bs

/-- Whether `pat` occurs contiguously inside `s`. -/
def hasSubL : List Char → List Char → Bool
  | [], pat => pat.isEmpty
  | a :: rest, pat => startsWithL (a :: rest) pat || hasSubL rest pat

/-- JS `String.prototype.includes`. -/
def strContains (s pat : String) : Bool :=
  hasSubL s.toList pat.toList

/-- The error message thrown by the `!this.isConnected || !this.session`
guards. -/
def notConnectedMsg : String := "Not connected to PLC"

/-- The connection-loss signature test applied to error messages in the
`catch` blocks of `readVariable` and `readRegisteredNode`
(client.js lines 188-191 and 569-572). -/
def connectionLossSig (m : String) : Bool :=
  strContains m "BadSessionClosed" || strContains m "BadConnectionClosed" ||
  strContains m "ECONNREFUSED" || strContains m "ETIMEDOUT"

/-- Error-message classification in `connect`'s catch block
(client.js lines 127-135). -/
def classifyConnectError (m : String) : String :=
  if strContains m "keep" || strContains m "KeepAlive" then
    "Keep-alive error: " ++ m ++ ". Consider increasing Keep Alive Interval in settings."
  else if strContains m "timeout" || strContains m "ETIMEDOUT" then
    "Connection timeout: " ++ m ++ ". Check network and increase timeout settings."
  else if strContains m "ECONNREFUSED" then
    "Connection refused: OPC UA server is not running or endpoint is incorrect."
  else m

/-- `Math.max(10, Math.ceil(10000 / publishingInterval))`
(client.js lines 349 and 712), with the ceiling of the exact division
expressed as ceiling division on naturals. -/
def maxKeepAliveCount (publishingInterval : Nat) : Nat :=
  max 10 ((10000 + publishingInterval - 1) / publishingInterval)

/-- `maxKeepAliveCount * 3` (client.js lines 350 and 713). -/
def lifetimeCount (publishingInterval : Nat) : Nat :=
  maxKeepAliveCount publishingInterval * 3

/-- Outcomes of the fallible external calls made through the session and the
client. An `Except.error m` result models the call throwing a JS error whose
message is `m`; oracles returning `Option String` model calls whose only
interesting outcome is success or a thrown message. -/
structure Env where
  readRes : String → Except String DataValue
  writeRes : String → Except String StatusCode
  registerRes : String → Except String (List String)
  unregErr : List String → Option String
  termErr : String → Option String
  closeFails : Bool
  clientDiscFails : Bool
  clientConnectErr : Option String
  createSessionErr : Option String
  subCreateErr : Option String
  monitorErr : Option String
  browseRes : Except String (List String)
  now : Nat
  rand : String

/-- External calls observed during a cleanup pass, used to state ordering
properties of `cleanup`. -/
inductive CleanupEvent where
  | unregisterNodes (nodeIds : List String)
  | terminate (subId : String)
  | closeSession
  | disconnectClient
deriving DecidableEq, Repr

/-- The state reset performed by `cleanup`'s outer catch block
(client.js lines 922-927): note the source clears `registeredNodes` there
but not `subscriptions`. -/
def forceReset (s : ManagerState) : ManagerState :=
  { s with hasClient := false, hasSession := false, isConnected := false,
           connectionConfig := none, registeredNodes := [] }

/-- `cleanup` (client.js lines 882-929). In source order: batch-unregister
all registered nodes (inner try/catch, failure swallowed) then clear the
node registry; terminate each subscription (per-item try/catch, failure
swallowed) then clear the subscription registry; close the session;
disconnect the client; reset the connection flags. An exception from
`session.close()` or `client.disconnect()` reaches the outer catch, which
force-resets the state. Returns the final state and the trace of external
calls attempted. -/
def cleanup (env : Env) (s : ManagerState) : ManagerState × List CleanupEvent :=
  let tr1 := if s.hasSession && !s.registeredNodes.isEmpty then
      [CleanupEvent.unregisterNodes (s.registeredNodes.map (fun p => p.1))]
    else []
  let s1 := { s with registeredNodes := [] }
  let tr2 := s1.subscriptions.map (fun p => CleanupEvent.terminate p.1)
  let s2 := { s1 with subscriptions := [] }
  if s2.hasSession then
    if env.closeFails then
      (forceReset s2, tr1 ++ tr2 ++ [CleanupEvent.closeSession])
    else
      let s3 := { s2 with hasSession := false }
      if s3.hasClient then
        if env.clientDiscFails then
          (forceReset s3, tr1 ++ tr2 ++ [CleanupEvent.closeSession, CleanupEvent.disconnectClient])
        else
          ({ s3 with hasClient := false, isConnected := false, connectionConfig := none },
           tr1 ++ tr2 ++ [CleanupEvent.closeSession, CleanupEvent.disconnectClient])
      else
        ({ s3 with isConnected := false, connectionConfig := none },
         tr1 ++ tr2 ++ [CleanupEvent.closeSession])
  else
    if s2.hasClient then
      if env.clientDiscFails then
        (forceReset s2, tr1 ++ tr2 ++ [CleanupEvent.disconnectClient])
      else
        ({ s2 with hasClient := false, isConnected := false, connectionConfig := none },
         tr1 ++ tr2 ++ [CleanupEvent.disconnectClient])
    else
      ({ s2 with isConnected := false, connectionConfig := none }, tr1 ++ tr2)

/-- The fully-reset manager state every cleanup pass ends in. -/
def emptyDisconnected : ManagerState :=
  { hasClient := false, hasSession := false, isConnected := false,
    connectionConfig := none, subscriptions := [], registeredNodes := [] }

/-- `handleConnectionLost` (client.js lines 816-827): clears the connected
flag and runs `cleanup` (fire-and-forget in the source, run to completion
here; its own errors are swallowed by `cleanup`). -/
def handleConnectionLost (env : Env) (s : ManagerState) : ManagerState :=
  (cleanup env { s with isConnected := false }).1

/-- `disconnect` (client.js lines 145-157): routes through `cleanup` and
reports success; `cleanup` never throws, so neither does `disconnect`. -/
def disconnect (env : Env) (s : ManagerState) : Except String String × ManagerState :=
  ((Except.ok "Disconnected successfully"), (cleanup env s).1)

/-- Result of a successful `connect`. -/
structure ConnectOk where
  endpoint : String
deriving DecidableEq, Repr

/-- `connect` (client.js lines 30-140). Throws `AlreadyConnected` when the
connected flag is set; that throw is caught by `connect`'s own catch block,
which runs `cleanup` before re-surfacing the (classified) message. Transport
connect and session creation are modelled through `env`; on success the
config is recorded and the connected flag set. -/
def connect (env : Env) (cfg : Config) (s : ManagerState) :
    Except String ConnectOk × ManagerState :=
  if s.isConnected then
    (Except.error (classifyConnectError "Already connected. Disconnect first."),
     (cleanup env s).1)
  else
    let s1 := { s with hasClient := true }
    match env.clientConnectErr with
    | some m => (Except.error (classifyConnectError m), (cleanup env s1).1)
    | none =>
      match env.createSessionErr with
      | some m =>
        (Except.error (classifyConnectError m), (cleanup env s1).1)
      | none =>
        let s2 := { s1 with hasSession := true, isConnected := true,
                            connectionConfig := some cfg }
        (Except.ok { endpoint := cfg.endpoint }, s2)

/-- Result of a successful `readVariable`/`readRegisteredNode`. -/
structure ReadOk where
  value : Int
  dataType : String
  statusCode : String
  timestamp : Nat
deriving DecidableEq, Repr

/-- `readVariable` (client.js lines 162-198). The guard throws
`NotConnected`; a bad status code raises `Read failed: ...`, which is caught
by the same catch block as a session exception, so both paths are tested
against the connection-loss signature and force `handleConnectionLost` on a
match. -/
def readVariable (env : Env) (nodeId : String) (s : ManagerState) :
    Except String ReadOk × ManagerState :=
  if !s.isConnected || !s.hasSession then (Except.error notConnectedMsg, s)
  else
    match env.readRes nodeId with
    | Except.ok dv =>
      if dv.statusCode.good then
        (Except.ok { value := dv.value, dataType := dv.dataType,
                     statusCode := dv.statusCode.text, timestamp := dv.timestamp }, s)
      else
        let m := "Read failed: " ++ dv.statusCode.text
        if connectionLossSig m then
          (Except.error m, handleConnectionLost env { s with isConnected := false })
        else (Except.error m, s)
    | Except.error m =>
      if connectionLossSig m then
        (Except.error m, handleConnectionLost env { s with isConnected := false })
      else (Except.error m, s)

/-- The data-type token mapping shared by `writeVariable` and
`writeRegisteredNode` (client.js lines 210-233): lower-case the token
(empty/absent defaults to Double) and test substrings in source order. -/
def mapDataType (dataType : String) : String :=
  let d := (if dataType == "" then "Double" else dataType).toLower
  if strContains d "bool" then "Boolean"
  else if strContains d "byte" || strContains d "sbyte" then "Byte"
  else if strContains d "int16" then "Int16"
  else if strContains d "uint16" || strContains d "word" then "UInt16"
  else if strContains d "int32" || strContains d "int" || strContains d "dint" then "Int32"
  else if strContains d "uint32" || strContains d "dword" then "UInt32"
  else if strContains d "float" || strContains d "real" then "Float"
  else if strContains d "double" || strContains d "lreal" then "Double"
  else if strContains d "string" then "String"
  else "Double"

/-- Result of a successful write. -/
structure WriteOk where
  statusCode : String
deriving DecidableEq, Repr

/-- `writeVariable` (client.js lines 203-261). Its catch block only logs and
re-throws: no connection-loss signature test, no state change on failure. -/
def writeVariable (env : Env) (nodeId : String) (_value : Int) (dataType : String)
    (s : ManagerState) : Except String WriteOk × ManagerState :=
  if !s.isConnected || !s.hasSession then (Except.error notConnectedMsg, s)
  else
    let _mapped := mapDataType dataType
    match env.writeRes nodeId with
    | Except.ok sc =>
      if sc.good then (Except.ok { statusCode := sc.text }, s)
      else (Except.error ("Write failed: " ++ sc.text), s)
    | Except.error m => (Except.error m, s)

/-- `browseNodes` (client.js lines 266-336): guard, then the browse call via
the environment; node post-processing is not claim-relevant and the browse
result is passed through. -/
def browseNodes (env : Env) (s : ManagerState) :
    Except String (List String) × ManagerState :=
  if !s.isConnected || !s.hasSession then (Except.error notConnectedMsg, s)
  else
    match env.browseRes with
    | Except.ok nodes => (Except.ok nodes, s)
    | Except.error m => (Except.error m, s)

/-- Result of a successful subscribe. -/
structure SubOk where
  subscriptionId : String
deriving DecidableEq, Repr

/-- `subscribe` (client.js lines 341-396): guard, create the subscription
and monitored item (either may throw), store
`{subscription, monitoredItem, nodeId}` under `sub_<now>` and attach the
log-only `changed` handler. No value is ever cached for these entries. -/
def subscribe (env : Env) (nodeId : String) (interval : Nat) (s : ManagerState) :
    Except String SubOk × ManagerState :=
  if !s.isConnected || !s.hasSession then (Except.error notConnectedMsg, s)
  else
    let _keepAlive := maxKeepAliveCount interval
    let _lifetime := lifetimeCount interval
    match env.subCreateErr with
    | some m => (Except.error m, s)
    | none =>
      match env.monitorErr with
      | some m => (Except.error m, s)
      | none =>
        let subscriptionId := "sub_" ++ toString env.now
        let entry : SubEntry :=
          { nodeId := nodeId, originalNodeId := none, isRegistered := false,
            latestValue := none, handler := ChangeHandler.logOnly }
        (Except.ok { subscriptionId := subscriptionId },
         { s with subscriptions := setA s.subscriptions subscriptionId entry })

/-- `unsubscribe` (client.js lines 401-419). Note: no connection guard. An
unknown handle throws `Subscription not found`; a throwing `terminate`
propagates and the entry is then not removed. -/
def unsubscribe (env : Env) (subscriptionId : String) (s : ManagerState) :
    Except String String × ManagerState :=
  match lookupA s.subscriptions subscriptionId with
  | none => (Except.error "Subscription not found", s)
  | some _ =>
    match env.termErr subscriptionId with
    | some m => (Except.error m, s)
    | none =>
      (Except.ok "Unsubscribed successfully",
       { s with subscriptions := removeA s.subscriptions subscriptionId })

/-- External session calls observed during `registerNode`, used to state
that no registration request is sent on a failed verification read. -/
inductive SessionCall where
  | readReq (nodeId : String)
  | registerReq (nodeIds : List String)
deriving DecidableEq, Repr

/-- Result of a successful `registerNode`. -/
structure RegOk where
  registeredId : String
  nodeId : String
deriving DecidableEq, Repr

/-- `registerNode` (client.js lines 425-477): guard; verification read of
the value attribute (a thrown read or a non-good status both route through
the inner catch into a `Cannot register node: ...` error, carrying the
status text); then the server registration request; then the mapping is
stored under the server-issued id. Returns result, state and the trace of
session calls made. -/
def registerNode (env : Env) (nodeId : String) (s : ManagerState) :
    Except String RegOk × ManagerState × List SessionCall :=
  if !s.isConnected || !s.hasSession then (Except.error notConnectedMsg, s, [])
  else
    match env.readRes nodeId with
    | Except.error m =>
      let mm := if m == "" then "Node does not exist or is not accessible in PLC." else m
      (Except.error ("Cannot register node: " ++ nodeId ++ ". " ++ mm), s,
       [SessionCall.readReq nodeId])
    | Except.ok dv =>
      if !dv.statusCode.good then
        (Except.error ("Cannot register node: " ++ nodeId ++ ". Node not accessible: " ++
           dv.statusCode.text ++ ". The variable may not exist in PLC or is not accessible."),
         s, [SessionCall.readReq nodeId])
      else
        match env.registerRes nodeId with
        | Except.error m =>
          (Except.error m, s, [SessionCall.readReq nodeId, SessionCall.registerReq [nodeId]])
        | Except.ok ids =>
          match ids with
          | [] => (Except.error "Failed to register node on server", s,
                   [SessionCall.readReq nodeId, SessionCall.registerReq [nodeId]])
          | rid :: _ =>
            let info : RegNodeInfo := { originalNodeId := nodeId, registeredAt := env.now }
            (Except.ok { registeredId := rid, nodeId := nodeId },
             { s with registeredNodes := setA s.registeredNodes rid info },
             [SessionCall.readReq nodeId, SessionCall.registerReq [nodeId]])

/-- Result of a successful `unregisterNode`. -/
structure UnregOk where
  terminatedSubscriptions : Nat
deriving DecidableEq, Repr

/-- `unregisterNode` (client.js lines 482-532): guard; unknown handle throws
`Registered node not found`; otherwise collect the subscriptions whose
`nodeId` equals the handle, terminate each inside a per-item try/catch
(note the `subscriptions.delete` sits after the `await` in the same `try`,
so a throwing terminate leaves the entry in place); then the server
deregistration (a throw here propagates); then the local mapping is removed
and the collected count reported. -/
def unregisterNode (env : Env) (registeredId : String) (s : ManagerState) :
    Except String UnregOk × ManagerState :=
  if !s.isConnected || !s.hasSession then (Except.error notConnectedMsg, s)
  else
    match lookupA s.registeredNodes registeredId with
    | none => (Except.error "Registered node not found", s)
    | some _ =>
      let toDelete := (s.subscriptions.filter (fun p => p.2.nodeId == registeredId)).map
        (fun p => p.1)
      let subs1 := toDelete.foldl
        (fun acc subId => if (env.termErr subId).isSome then acc else removeA acc subId)
        s.subscriptions
      let s1 := { s with subscriptions := subs1 }
      match env.unregErr [registeredId] with
      | some m => (Except.error m, s1)
      | none =>
        (Except.ok { terminatedSubscriptions := toDelete.length },
         { s1 with registeredNodes := removeA s1.registeredNodes registeredId })

/-- One row of `getRegisteredNodes` (client.js lines 663-673). -/
structure RegNodeRow where
  registeredId : String
  nodeId : String
  registeredAt : Nat
deriving DecidableEq, Repr

/-- `getRegisteredNodes`: read-only snapshot of the node registry. -/
def getRegisteredNodes (s : ManagerState) : List RegNodeRow :=
  s.registeredNodes.map (fun p =>
    { registeredId := p.1, nodeId := p.2.originalNodeId, registeredAt := p.2.registeredAt })

/-- One row of `getActiveSubscriptions` (client.js lines 678-690). -/
structure SubRow where
  subscriptionId : String
  nodeId : String
  originalNodeId : Option String
  isRegistered : Bool
  latestValue : Option CachedValue
deriving DecidableEq, Repr

/-- `getActiveSubscriptions`: read-only snapshot of the subscription
registry. -/
def getActiveSubscriptions (s : ManagerState) : List SubRow :=
  s.subscriptions.map (fun p =>
    { subscriptionId := p.1, nodeId := p.2.nodeId, originalNodeId := p.2.originalNodeId,
      isRegistered := p.2.isRegistered, latestValue := p.2.latestValue })

/-- `subscribeRegisteredNode` (client.js lines 695-797): guard; unknown
handle throws; create subscription and monitored item; seed the cached value
with an initial read (a thrown or non-good read leaves the seed empty);
store the full entry under `sub_<now>_<rand>` with the value-storing
`changed` handler. -/
def subscribeRegisteredNode (env : Env) (registeredId : String) (interval : Nat)
    (s : ManagerState) : Except String SubOk × ManagerState :=
  if !s.isConnected || !s.hasSession then (Except.error notConnectedMsg, s)
  else
    match lookupA s.registeredNodes registeredId with
    | none => (Except.error "Registered node not found", s)
    | some info =>
      let _keepAlive := maxKeepAliveCount interval
      let _lifetime := lifetimeCount interval
      match env.subCreateErr with
      | some m => (Except.error m, s)
      | none =>
        match env.monitorErr with
        | some m => (Except.error m, s)
        | none =>
          let subscriptionId := "sub_" ++ toString env.now ++ "_" ++ env.rand
          let initialValue : Option CachedValue :=
            match env.readRes registeredId with
            | Except.ok dv =>
              if dv.statusCode.good then
                some { value := dv.value, dataType := dv.dataType, timestamp := dv.timestamp }
              else none
            | Except.error _ => none
          let entry : SubEntry :=
            { nodeId := registeredId, originalNodeId := some info.originalNodeId,
              isRegistered := true, latestValue := initialValue,
              handler := ChangeHandler.storeLatest }
          (Except.ok { subscriptionId := subscriptionId },
           { s with subscriptions := setA s.subscriptions subscriptionId entry })

/-- Delivery of a `changed` notification for the monitored item registered
under `subscriptionId`. The closure attached by `subscribe` only logs; the
closure attached by `subscribeRegisteredNode` looks the entry up by its id
and overwrites `latestValue` (client.js lines 770-784). -/
def deliverChange (subscriptionId : String) (v : CachedValue) (s : ManagerState) :
    ManagerState :=
  match lookupA s.subscriptions subscriptionId with
  | none => s
  | some e =>
    match e.handler with
    | ChangeHandler.logOnly => s
    | ChangeHandler.storeLatest =>
      let e2 : SubEntry := { e with latestValue := some v }
      { s with subscriptions := setA s.subscriptions subscriptionId e2 }

/-- `getSubscriptionValue` (client.js lines 802-811). -/
def getSubscriptionValue (subscriptionId : String) (s : ManagerState) :
    Except String (Option CachedValue) :=
  match lookupA s.subscriptions subscriptionId with
  | none => Except.error "Subscription not found"
  | some e => Except.ok e.latestValue

/-- `getStatus`'s result record. -/
structure StatusResult where
  connected : Bool
  endpointOpt : Option String
  sessionActive : Bool
deriving DecidableEq, Repr

/-- `getStatus` (client.js lines 832-877): with the flag down or no session
it reports disconnected immediately; otherwise it performs a liveness read
of `i=2259`, and on a non-good or throwing probe clears the flag and runs
`handleConnectionLost`. -/
def getStatus (env : Env) (s : ManagerState) : StatusResult × ManagerState :=
  if !s.isConnected || !s.hasSession then
    ({ connected := false, endpointOpt := s.connectionConfig.map (fun c => c.endpoint),
       sessionActive := false }, s)
  else
    match env.readRes "i=2259" with
    | Except.ok dv =>
      if dv.statusCode.good then
        ({ connected := true, endpointOpt := s.connectionConfig.map (fun c => c.endpoint),
           sessionActive := true }, s)
      else
        ({ connected := false, endpointOpt := s.connectionConfig.map (fun c => c.endpoint),
           sessionActive := false },
         handleConnectionLost env { s with isConnected := false })
    | Except.error _ =>
      ({ connected := false, endpointOpt := s.connectionConfig.map (fun c => c.endpoint),
         sessionActive := false },
       handleConnectionLost env { s with isConnected := false })

/-- Whether a cleanup event is a subscription termination. -/
def eventIsTerm : CleanupEvent → Bool
  | CleanupEvent.terminate _ => true
  | _ => false

/-- Whether a cleanup event is a node-deregistration request. -/
def eventIsUnreg : CleanupEvent → Bool
  | CleanupEvent.unregisterNodes _ => true
  | _ => false

/-- Whether, in a cleanup trace, every subscription termination happens
before every node-deregistration request (the accumulator records whether a
deregistration has been seen). -/
def termsBeforeUnregs : Bool → List CleanupEvent → Bool
  | _, [] => true
  | seen, e :: rest =>
    if eventIsTerm e && seen then false
    else termsBeforeUnregs (seen || eventIsUnreg e) rest

/-- The session-close/transport-disconnect tail of a cleanup trace. -/
def cleanupTailEvents (env : Env) (s : ManagerState) : List CleanupEvent :=
  if s.hasSession then
    if env.closeFails then [CleanupEvent.closeSession]
    else if s.hasClient then [CleanupEvent.closeSession, CleanupEvent.disconnectClient]
    else [CleanupEvent.closeSession]
  else if s.hasClient then [CleanupEvent.disconnectClient] else []

/-- A baseline environment for concrete runs: every external call that can
succeed does, reads and writes throw an empty-message error, the clock reads
100 and the random suffix is fixed. -/
def envBase : Env :=
  { readRes := fun _ => Except.error "", writeRes := fun _ => Except.error "",
    registerRes := fun _ => Except.error "", unregErr := fun _ => none,
    termErr := fun _ => none, closeFails := false, clientDiscFails := false,
    clientConnectErr := none, createSessionErr := none, subCreateErr := none,
    monitorErr := none, browseRes := Except.error "", now := 100, rand := "r" }

/-- A freshly connected manager: session and client live, registries empty. -/
def stConn : ManagerState :=
  { hasClient := true, hasSession := true, isConnected := true,
    connectionConfig := none, subscriptions := [], registeredNodes := [] }

/-- A connected manager holding one registered node `r1` (for `n1`). -/
def stReg : ManagerState :=
  { stConn with registeredNodes := [("r1", { originalNodeId := "n1", registeredAt := 0 })] }

/-- A connected manager holding registered node `r1` and one live
subscription `s1` targeting `r1`. -/
def stFull : ManagerState :=
  { stReg with subscriptions :=
      [("s1", { nodeId := "r1", originalNodeId := some "n1", isRegistered := true,
                latestValue := none, handler := ChangeHandler.storeLatest })] }

/-- A sample connection config. -/
def cfg0 : Config :=
  { endpoint := "opc.tcp://192.168.0.1:4840", securityPolicy := "None",
    securityMode := "None", authType := "Anonymous", username := "", password := "" }

/-- A non-good data value, as produced for an inaccessible node. -/
def dvBad : DataValue :=
  { statusCode := { good := false, text := "BadNodeIdUnknown (0x80340000)" },
    value := 0, dataType := "Null", timestamp := 0 }

/-- Environment whose verification reads return the non-good value. -/
def envBad : Env := { envBase with readRes := fun _ => Except.ok dvBad }

/-- Environment in which every subscription termination throws. -/
def envTermFail : Env := { envBase with termErr := fun _ => some "terminate failed" }

/-- Environment in which every write throws a connection-refused error. -/
def envWriteRefused : Env :=
  { envBase with writeRes := fun _ => Except.error "connect ECONNREFUSED 192.168.0.1:4840" }

/-- Environment in which every read throws a session-closed error. -/
def envReadClosed : Env :=
  { envBase with readRes := fun _ => Except.error "BadSessionClosed (0x80260000)" }

/-- A sample notified value. -/
def cv42 : CachedValue := { value := 42, dataType := "Double", timestamp := 5 }

end OpcuaClient

namespace OpcuaClient

/-- Every cleanup pass, whatever the environment does and whatever state it
starts from, ends in the fully reset state: both registries empty, no
session, no client, flag down, config cleared. -/
theorem cleanup_fst_eq (env : Env) (s : ManagerState) :
    (cleanup env s).1 = emptyDisconnected := by
  cases hs : s.hasSession <;> cases hc : s.hasClient <;>
    cases hf : env.closeFails <;> cases hd : env.clientDiscFails <;>
      simp [cleanup, forceReset, emptyDisconnected, hs, hc, hf, hd]

/-- A state with the connected flag down reports disconnected from
`getStatus` without probing. -/
theorem getStatus_not_connected (env : Env) (s : ManagerState)
    (h : s.isConnected = false) : ((getStatus env s).1).connected = false := by
  simp [getStatus, h]

/-- C1: after every completed cleanup pass — run directly, via `disconnect`,
or via a fault transition (`handleConnectionLost`) — the registered-node
registry and the subscription registry are both empty and `getStatus`
reports `connected = false`, whatever teardown steps failed along the way
(the environment `env` chooses freely which steps throw). -/
theorem cleanup_invariant_registries_empty (env envS : Env) (s : ManagerState) :
    ((cleanup env s).1.registeredNodes = [] ∧ (cleanup env s).1.subscriptions = [] ∧
      (cleanup env s).1.isConnected = false ∧
      ((getStatus envS (cleanup env s).1).1).connected = false) ∧
    ((disconnect env s).2.registeredNodes = [] ∧ (disconnect env s).2.subscriptions = [] ∧
      ((getStatus envS (disconnect env s).2).1).connected = false) ∧
    ((handleConnectionLost env s).registeredNodes = [] ∧
      (handleConnectionLost env s).subscriptions = [] ∧
      ((getStatus envS (handleConnectionLost env s)).1).connected = false) := by
  have h1 := cleanup_fst_eq env s
  have h2 := cleanup_fst_eq env { s with isConnected := false }
  have hd : (disconnect env s).2 = emptyDisconnected := h1
  have hh : handleConnectionLost env s = emptyDisconnected := h2
  refine ⟨⟨?_, ?_, ?_, ?_⟩, ⟨?_, ?_, ?_⟩, ⟨?_, ?_, ?_⟩⟩ <;>
    simp [h1, hd, hh, emptyDisconnected, getStatus]

/-- C8: `disconnect` always reports success and ends in the reset state; a
second `disconnect` also succeeds, and its cleanup pass performs no external
teardown call at all (empty trace). -/
theorem disconnect_idempotent (env1 env2 : Env) (s : ManagerState) :
    (disconnect env1 s).1 = Except.ok "Disconnected successfully" ∧
    (disconnect env1 s).2 = emptyDisconnected ∧
    (disconnect env1 s).2.isConnected = false ∧
    (disconnect env2 (disconnect env1 s).2).1 = Except.ok "Disconnected successfully" ∧
    (disconnect env2 (disconnect env1 s).2).2 = emptyDisconnected ∧
    (cleanup env2 (disconnect env1 s).2).2 = [] := by
  have h1 : (disconnect env1 s).2 = emptyDisconnected := cleanup_fst_eq env1 s
  refine ⟨rfl, h1, ?_, rfl, cleanup_fst_eq env2 _, ?_⟩
  · rw [h1]; rfl
  · rw [h1]; rfl

end OpcuaClient

namespace OpcuaClient

/-- The exact rational ceiling of `10000 / i` coincides with the ceiling
division on naturals used in `maxKeepAliveCount`. -/
theorem ceil_div_nat (i : Nat) (hi : 0 < i) :
    ⌈(10000 : ℚ) / (i : ℚ)⌉ = ((10000 + i - 1) / i : ℕ) := by
  have hiq : (0 : ℚ) < (i : ℚ) := by exact_mod_cast hi
  set c : ℕ := (10000 + i - 1) / i with hc
  have hdm : c * i + (10000 + i - 1) % i = 10000 + i - 1 := by
    rw [Nat.mul_comm c i]; exact Nat.div_add_mod (10000 + i - 1) i
  have hmod : (10000 + i - 1) % i < i := Nat.mod_lt _ hi
  have h1 : 10000 ≤ c * i := by omega
  have h3 : c * i < 10000 + i := by omega
  rw [Int.ceil_eq_iff]
  constructor
  · have h3q : (c : ℚ) * i < 10000 + i := by exact_mod_cast h3
    rw [lt_div_iff₀ hiq]
    push_cast
    nlinarith [h3q]
  · have h1q : (10000 : ℚ) ≤ (c : ℚ) * i := by exact_mod_cast h1
    rw [div_le_iff₀ hiq]
    push_cast
    linarith

/-- C3: for every positive publishing interval, the derived keep-alive count
is `max 10 ⌈10000 / intervalMs⌉` (exact rational ceiling) and the lifetime
count is three times it; in particular 500 ms gives 20/60 and 2000 ms gives
10/30. -/
theorem subscription_timing (i : Nat) (hi : 0 < i) :
    (maxKeepAliveCount i : ℤ) = max 10 ⌈(10000 : ℚ) / (i : ℚ)⌉ ∧
    lifetimeCount i = maxKeepAliveCount i * 3 ∧
    maxKeepAliveCount 500 = 20 ∧ lifetimeCount 500 = 60 ∧
    maxKeepAliveCount 2000 = 10 ∧ lifetimeCount 2000 = 30 := by
  refine ⟨?_, rfl, by decide, by decide, by decide, by decide⟩
  rw [ceil_div_nat i hi]
  simp [maxKeepAliveCount, Nat.cast_max]

/-- Witness for C3 at `intervalMs = 500`. -/
theorem subscription_timing_witness :
    0 < 500 ∧
    ((maxKeepAliveCount 500 : ℤ) = max 10 ⌈(10000 : ℚ) / ((500 : Nat) : ℚ)⌉ ∧
     lifetimeCount 500 = maxKeepAliveCount 500 * 3 ∧
     maxKeepAliveCount 500 = 20 ∧ lifetimeCount 500 = 60 ∧
     maxKeepAliveCount 2000 = 10 ∧ lifetimeCount 2000 = 30) :=
  ⟨by decide, subscription_timing 500 (by decide)⟩

/-- C10: `connect` while already connected fails with the AlreadyConnected
message, but only after a full cleanup pass against the existing connection:
afterwards both registries are empty, the session is gone and the manager
reports disconnected. -/
theorem connect_while_connected (env envS : Env) (cfg : Config) (s : ManagerState)
    (h : s.isConnected = true) :
    (connect env cfg s).1 = Except.error "Already connected. Disconnect first." ∧
    (connect env cfg s).2 = emptyDisconnected ∧
    (connect env cfg s).2.registeredNodes = [] ∧
    (connect env cfg s).2.subscriptions = [] ∧
    (connect env cfg s).2.hasSession = false ∧
    ((getStatus envS (connect env cfg s).2).1).connected = false := by
  have hcl : classifyConnectError "Already connected. Disconnect first." =
      "Already connected. Disconnect first." := by decide
  have hc : (connect env cfg s).2 = emptyDisconnected := by
    simp [connect, h, cleanup_fst_eq]
  refine ⟨?_, hc, ?_, ?_, ?_, ?_⟩ <;>
    simp [connect, h, hcl, hc, cleanup_fst_eq, emptyDisconnected, getStatus]

/-- Witness for C10 on a concrete connected manager holding a registered
node and a subscription. -/
theorem connect_while_connected_witness :
    stFull.isConnected = true ∧
    ((connect envBase cfg0 stFull).1 = Except.error "Already connected. Disconnect first." ∧
     (connect envBase cfg0 stFull).2 = emptyDisconnected ∧
     (connect envBase cfg0 stFull).2.registeredNodes = [] ∧
     (connect envBase cfg0 stFull).2.subscriptions = [] ∧
     (connect envBase cfg0 stFull).2.hasSession = false ∧
     ((getStatus envBase (connect envBase cfg0 stFull).2).1).connected = false) :=
  ⟨rfl, connect_while_connected envBase envBase cfg0 stFull rfl⟩

end OpcuaClient

namespace OpcuaClient

/-- C2 fails as stated: on a manager holding one registered node and one
subscription, the cleanup trace deregisters the node BEFORE terminating the
subscription, so the claimed terminate-first order is violated. -/
theorem cleanup_order_counterexample :
    (cleanup envBase stFull).2 =
      [CleanupEvent.unregisterNodes ["r1"], CleanupEvent.terminate "s1",
       CleanupEvent.closeSession, CleanupEvent.disconnectClient] ∧
    termsBeforeUnregs false (cleanup envBase stFull).2 = false := by decide

/-- C2 amended: cleanup executes in source order — first the batched node
deregistration, then every subscription termination (following the
subscription registry), then session close and transport disconnect — each
registry being cleared right after its own step, and the pass always ends in
the fully reset state without throwing. -/
theorem cleanup_source_order (env : Env) (s : ManagerState) :
    (cleanup env s).2 =
      (if s.hasSession && !s.registeredNodes.isEmpty then
          [CleanupEvent.unregisterNodes (s.registeredNodes.map (fun p => p.1))]
        else []) ++
      s.subscriptions.map (fun p => CleanupEvent.terminate p.1) ++
      cleanupTailEvents env s ∧
    (∀ e ∈ cleanupTailEvents env s,
        e = CleanupEvent.closeSession ∨ e = CleanupEvent.disconnectClient) ∧
    (cleanup env s).1 = emptyDisconnected := by
  refine ⟨?_, ?_, cleanup_fst_eq env s⟩
  · cases hs : s.hasSession <;> cases hc : s.hasClient <;> cases hf : env.closeFails <;>
      cases hd : env.clientDiscFails <;>
        simp [cleanup, cleanupTailEvents, forceReset, hs, hc, hf, hd]
  · intro e he
    cases hs : s.hasSession <;> cases hc : s.hasClient <;> cases hf : env.closeFails <;>
      simp [cleanupTailEvents, hs, hc, hf] at he <;> tauto

/-- C4 fails as stated: `unsubscribe` has no connection guard; issued while
disconnected it fails with the SubscriptionNotFound message, not the
NotConnected one. -/
theorem unsubscribe_no_guard_counterexample :
    emptyDisconnected.isConnected = false ∧
    (unsubscribe envBase "sub_1" emptyDisconnected).1 =
      Except.error "Subscription not found" ∧
    ("Subscription not found" : String) ≠ notConnectedMsg :=
  ⟨rfl, rfl, by decide⟩

/-- C4 amended: every listed operation except `unsubscribe` fails with
NotConnected when the connected flag is down; `unsubscribe` ignores the
connection state and fails with SubscriptionNotFound when the handle is
unknown (always the case once cleanup has emptied the registry). -/
theorem not_connected_guards (env : Env) (s : ManagerState) (nodeId : String) (v : Int)
    (dt : String) (interval : Nat) (h : s.isConnected = false) :
    (readVariable env nodeId s).1 = Except.error notConnectedMsg ∧
    (writeVariable env nodeId v dt s).1 = Except.error notConnectedMsg ∧
    (browseNodes env s).1 = Except.error notConnectedMsg ∧
    (subscribe env nodeId interval s).1 = Except.error notConnectedMsg ∧
    (registerNode env nodeId s).1 = Except.error notConnectedMsg ∧
    (unregisterNode env nodeId s).1 = Except.error notConnectedMsg ∧
    (subscribeRegisteredNode env nodeId interval s).1 = Except.error notConnectedMsg ∧
    (lookupA s.subscriptions nodeId = none →
      (unsubscribe env nodeId s).1 = Except.error "Subscription not found") := by
  refine ⟨?_, ?_, ?_, ?_, ?_, ?_, ?_, fun hl => ?_⟩ <;>
    simp [readVariable, writeVariable, browseNodes, subscribe, registerNode,
          unregisterNode, subscribeRegisteredNode, unsubscribe, h, *]

/-- Witness for the amended C4 on a disconnected manager. -/
theorem not_connected_guards_witness :
    emptyDisconnected.isConnected = false ∧
    ((readVariable envBase "n" emptyDisconnected).1 = Except.error notConnectedMsg ∧
     (writeVariable envBase "n" 0 "Double" emptyDisconnected).1 = Except.error notConnectedMsg ∧
     (browseNodes envBase emptyDisconnected).1 = Except.error notConnectedMsg ∧
     (subscribe envBase "n" 1000 emptyDisconnected).1 = Except.error notConnectedMsg ∧
     (registerNode envBase "n" emptyDisconnected).1 = Except.error notConnectedMsg ∧
     (unregisterNode envBase "n" emptyDisconnected).1 = Except.error notConnectedMsg ∧
     (subscribeRegisteredNode envBase "n" 1000 emptyDisconnected).1 =
       Except.error notConnectedMsg ∧
     (lookupA emptyDisconnected.subscriptions "n" = none →
       (unsubscribe envBase "n" emptyDisconnected).1 =
         Except.error "Subscription not found")) :=
  ⟨rfl, not_connected_guards envBase emptyDisconnected "n" 0 "Double" 1000 rfl⟩

/-- C6: when the verification read returns a non-good quality indicator,
`registerNode` fails with the NodeNotAccessible message carrying the quality
text, sends no registration request (the session-call trace holds only the
read), and leaves the state and the registry snapshot unchanged. -/
theorem register_bad_quality (env : Env) (s : ManagerState) (nodeId : String)
    (dv : DataValue) (hc : s.isConnected = true) (hs : s.hasSession = true)
    (hr : env.readRes nodeId = Except.ok dv) (hg : dv.statusCode.good = false) :
    (registerNode env nodeId s).1 = Except.error ("Cannot register node: " ++ nodeId ++
      ". Node not accessible: " ++ dv.statusCode.text ++
      ". The variable may not exist in PLC or is not accessible.") ∧
    (registerNode env nodeId s).2.1 = s ∧
    (registerNode env nodeId s).2.2 = [SessionCall.readReq nodeId] ∧
    getRegisteredNodes (registerNode env nodeId s).2.1 = getRegisteredNodes s := by
  simp [registerNode, hc, hs, hr, hg]

/-- Witness for C6 on a concrete inaccessible node. -/
theorem register_bad_quality_witness :
    stConn.isConnected = true ∧ stConn.hasSession = true ∧
    envBad.readRes "n1" = Except.ok dvBad ∧ dvBad.statusCode.good = false ∧
    ((registerNode envBad "n1" stConn).1 = Except.error ("Cannot register node: " ++ "n1" ++
      ". Node not accessible: " ++ dvBad.statusCode.text ++
      ". The variable may not exist in PLC or is not accessible.") ∧
     (registerNode envBad "n1" stConn).2.1 = stConn ∧
     (registerNode envBad "n1" stConn).2.2 = [SessionCall.readReq "n1"] ∧
     getRegisteredNodes (registerNode envBad "n1" stConn).2.1 = getRegisteredNodes stConn) :=
  ⟨rfl, rfl, rfl, rfl, register_bad_quality envBad stConn "n1" dvBad rfl rfl rfl rfl⟩

end OpcuaClient

namespace OpcuaClient

/-- Looking up a key just set finds the new value. -/
theorem lookupA_setA_self {α : Type} (l : List (String × α)) (k : String) (v : α) :
    lookupA (setA l k v) k = some v := by
  induction l with
  | nil => simp [setA, lookupA]
  | cons p rest ih =>
    obtain ⟨a, b⟩ := p
    cases hak : a == k <;> simp [setA, lookupA, hak, ih]

/-- After a value-storing notification on an entry just set under `sid`, the
polled value is the notified one. -/
theorem getSub_deliver_setA (s : ManagerState) (sid : String) (e : SubEntry)
    (v : CachedValue) (hh : e.handler = ChangeHandler.storeLatest) :
    getSubscriptionValue sid
      (deliverChange sid v { s with subscriptions := setA s.subscriptions sid e }) =
    Except.ok (some v) := by
  simp [deliverChange, lookupA_setA_self, hh, getSubscriptionValue]

/-- C5 fails as stated: a subscription created by plain `subscribe` carries
the log-only handler; a value-changed notification does not touch the cache
and `getSubscriptionValue` still returns no value. -/
theorem subscribe_no_cache_counterexample :
    (subscribe envBase "n1" 1000 stConn).1 = Except.ok { subscriptionId := "sub_100" } ∧
    getSubscriptionValue "sub_100"
        (deliverChange "sub_100" cv42 (subscribe envBase "n1" 1000 stConn).2) =
      Except.ok none ∧
    some cv42 ≠ (none : Option CachedValue) :=
  ⟨rfl, rfl, by decide⟩

/-- C5 amended: for subscriptions created by `subscribeRegisteredNode`, the
registered change-notification callback unconditionally overwrites the
cached value, so `getSubscriptionValue` on that handle returns the most
recently notified value; plain `subscribe` registers a log-only callback
that never caches. -/
theorem subscribe_registered_caches (env : Env) (registeredId : String) (interval : Nat)
    (s : ManagerState) (info : RegNodeInfo)
    (hc : s.isConnected = true) (hs : s.hasSession = true)
    (hl : lookupA s.registeredNodes registeredId = some info)
    (hce : env.subCreateErr = none) (hme : env.monitorErr = none) :
    (subscribeRegisteredNode env registeredId interval s).1 =
      Except.ok { subscriptionId := "sub_" ++ toString env.now ++ "_" ++ env.rand } ∧
    (∀ v, getSubscriptionValue ("sub_" ++ toString env.now ++ "_" ++ env.rand)
        (deliverChange ("sub_" ++ toString env.now ++ "_" ++ env.rand) v
          (subscribeRegisteredNode env registeredId interval s).2) =
      Except.ok (some v)) := by
  constructor
  · simp [subscribeRegisteredNode, hc, hs, hl, hce, hme]
  · intro v
    simp [subscribeRegisteredNode, hc, hs, hl, hce, hme, deliverChange,
          getSubscriptionValue, lookupA_setA_self]

/-- Witness for the amended C5: a registered-node subscription created on a
concrete manager reflects a delivered notification in the polled value. -/
theorem subscribe_registered_caches_witness :
    stReg.isConnected = true ∧ stReg.hasSession = true ∧
    lookupA stReg.registeredNodes "r1" = some { originalNodeId := "n1", registeredAt := 0 } ∧
    envBase.subCreateErr = none ∧ envBase.monitorErr = none ∧
    ((subscribeRegisteredNode envBase "r1" 1000 stReg).1 =
       Except.ok { subscriptionId := "sub_" ++ toString envBase.now ++ "_" ++ envBase.rand } ∧
     (∀ v, getSubscriptionValue ("sub_" ++ toString envBase.now ++ "_" ++ envBase.rand)
         (deliverChange ("sub_" ++ toString envBase.now ++ "_" ++ envBase.rand) v
           (subscribeRegisteredNode envBase "r1" 1000 stReg).2) =
       Except.ok (some v))) :=
  ⟨rfl, rfl, rfl, rfl, rfl,
   subscribe_registered_caches envBase "r1" 1000 stReg _ rfl rfl rfl rfl rfl⟩

end OpcuaClient

namespace OpcuaClient

/-- `removeA` is filtering out the key. -/
theorem removeA_eq_filter {α : Type} (l : List (String × α)) (k : String) :
    removeA l k = l.filter (fun q => !(q.1 == k)) := by
  induction l with
  | nil => rfl
  | cons p rest ih =>
    obtain ⟨a, b⟩ := p
    cases hak : a == k <;> simp [removeA, hak, ih]

/-- A removed key no longer resolves. -/
theorem lookupA_removeA_self {α : Type} (l : List (String × α)) (k : String) :
    lookupA (removeA l k) k = none := by
  induction l with
  | nil => rfl
  | cons p rest ih =>
    obtain ⟨a, b⟩ := p
    cases hak : a == k <;> simp [removeA, lookupA, hak, ih]

/-- Membership after folding `removeA` over a list of keys. -/
theorem mem_foldl_removeA {α : Type} (ids : List String) (l : List (String × α))
    (q : String × α) :
    q ∈ ids.foldl (fun acc k => removeA acc k) l ↔
      q ∈ l ∧ ∀ k ∈ ids, (q.1 == k) = false := by
  induction ids generalizing l with
  | nil => simp
  | cons a as ih =>
    rw [List.foldl_cons, ih, removeA_eq_filter, List.mem_filter]
    constructor
    · rintro ⟨⟨hq, hne⟩, hrest⟩
      refine ⟨hq, ?_⟩
      intro k hk
      rcases List.mem_cons.mp hk with hk1 | hk2
      · subst hk1; simpa using hne
      · exact hrest k hk2
    · rintro ⟨hq, hall⟩
      refine ⟨⟨hq, ?_⟩, fun k hk => hall k (List.mem_cons_of_mem _ hk)⟩
      simpa using hall a (List.mem_cons_self a as)

/-- When every collected termination succeeds, the conditional fold in
`unregisterNode` is a plain fold of removals. -/
theorem foldl_term_cond (env : Env) (ids : List String) (l : List (String × SubEntry))
    (h : ∀ k ∈ ids, env.termErr k = none) :
    ids.foldl (fun acc subId =>
        if (env.termErr subId).isSome then acc else removeA acc subId) l =
      ids.foldl (fun acc k => removeA acc k) l := by
  induction ids generalizing l with
  | nil => rfl
  | cons a as ih =>
    have ha : env.termErr a = none := h a (List.mem_cons_self a as)
    simp only [List.foldl_cons, ha, Option.isSome_none, Bool.false_eq_true, if_false]
    exact ih _ (fun k hk => h k (List.mem_cons_of_mem _ hk))

/-- A list none of whose elements satisfies the test filters to nil. -/
theorem filter_eq_nil_of_all {α : Type} (l : List α) (p : α → Bool)
    (h : ∀ a ∈ l, p a = false) : l.filter p = [] := by
  induction l with
  | nil => rfl
  | cons a rest ih =>
    simp [List.filter_cons, h a (List.mem_cons_self a rest),
          ih (fun b hb => h b (List.mem_cons_of_mem _ hb))]

/-- C7 fails as stated: with one live subscription targeting `r1` whose
termination throws, `unregisterNode` still succeeds and still reports one
cascaded termination, yet the subscription remains in the registry, so the
number of subscriptions targeting `r1` afterwards is 1, not 0. -/
theorem unregister_cascade_counterexample :
    (unregisterNode envTermFail "r1" stFull).1 =
      Except.ok { terminatedSubscriptions := 1 } ∧
    ((unregisterNode envTermFail "r1" stFull).2.subscriptions.filter
        (fun p => p.2.nodeId == "r1")).length = 1 :=
  ⟨rfl, rfl⟩

/-- C7 amended: provided every cascaded termination succeeds, a successful
`unregisterNode(h)` leaves zero subscriptions targeting `h`, reports a
cascaded count equal to the number of subscriptions that targeted `h`, and
removes the local mapping; on an unknown handle it fails with
RegisteredNodeNotFound and changes nothing. When a cascaded termination
throws, its subscription entry survives (see the counterexample). -/
theorem unregister_cascade (env : Env) (s : ManagerState) (h : String) :
    (∀ info, lookupA s.registeredNodes h = some info → s.isConnected = true →
      s.hasSession = true →
      (∀ p ∈ s.subscriptions, p.2.nodeId = h → env.termErr p.1 = none) →
      env.unregErr [h] = none →
      (unregisterNode env h s).1 = Except.ok { terminatedSubscriptions :=
          (s.subscriptions.filter (fun p => p.2.nodeId == h)).length } ∧
      (unregisterNode env h s).2.subscriptions.filter (fun p => p.2.nodeId == h) = [] ∧
      lookupA (unregisterNode env h s).2.registeredNodes h = none) ∧
    (lookupA s.registeredNodes h = none → s.isConnected = true → s.hasSession = true →
      (unregisterNode env h s).1 = Except.error "Registered node not found" ∧
      (unregisterNode env h s).2 = s) := by
  constructor
  · intro info hl hc hs hterm hunreg
    have hterm2 : ∀ k ∈ (s.subscriptions.filter (fun p => p.2.nodeId == h)).map
        (fun p => p.1), env.termErr k = none := by
      intro k hk
      rcases List.mem_map.mp hk with ⟨p, hp, hpk⟩
      have hpf := List.mem_filter.mp hp
      subst hpk
      exact hterm p hpf.1 (by simpa using hpf.2)
    refine ⟨?_, ?_, ?_⟩
    · simp [unregisterNode, hc, hs, hl, hunreg]
    · simp only [unregisterNode, hc, hs, Bool.not_true, Bool.or_self, Bool.false_eq_true,
                 if_false, hl, hunreg]
      rw [foldl_term_cond env _ _ hterm2]
      apply filter_eq_nil_of_all
      intro q hq
      rcases (mem_foldl_removeA _ _ _).mp hq with ⟨hql, hall⟩
      by_contra hne
      have hqt : (q.2.nodeId == h) = true := by
        revert hne; cases q.2.nodeId == h <;> simp
      have hqmem : q.1 ∈ (s.subscriptions.filter (fun p => p.2.nodeId == h)).map
          (fun p => p.1) :=
        List.mem_map.mpr ⟨q, List.mem_filter.mpr ⟨hql, hqt⟩, rfl⟩
      have hcontra := hall q.1 hqmem
      simp at hcontra
    · simp only [unregisterNode, hc, hs, Bool.not_true, Bool.or_self, Bool.false_eq_true,
                 if_false, hl, hunreg]
      exact lookupA_removeA_self _ _
  · intro hl hc hs
    constructor <;> simp [unregisterNode, hc, hs, hl]

/-- Witness for the amended C7 on a concrete manager with one cascaded
subscription whose termination succeeds. -/
theorem unregister_cascade_witness :
    (unregisterNode envBase "r1" stFull).1 = Except.ok { terminatedSubscriptions := 1 } ∧
    (unregisterNode envBase "r1" stFull).2.subscriptions.filter
        (fun p => p.2.nodeId == "r1") = [] ∧
    lookupA (unregisterNode envBase "r1" stFull).2.registeredNodes "r1" = none :=
  (unregister_cascade envBase stFull "r1").1 { originalNodeId := "n1", registeredAt := 0 }
    rfl rfl rfl (fun _ _ _ => rfl) rfl

end OpcuaClient

namespace OpcuaClient

/-- C9 fails as stated: a write whose failure message carries a
connection-loss signature (connection refused) is re-thrown with the state
untouched — the connected flag stays up and no cleanup runs. -/
theorem write_loss_no_fault_counterexample :
    connectionLossSig "connect ECONNREFUSED 192.168.0.1:4840" = true ∧
    (writeVariable envWriteRefused "n1" 5 "Double" stConn).1 =
      Except.error "connect ECONNREFUSED 192.168.0.1:4840" ∧
    (writeVariable envWriteRefused "n1" 5 "Double" stConn).2 = stConn ∧
    stConn.isConnected = true :=
  ⟨by decide, rfl, rfl, rfl⟩

/-- C9 amended: a READ failure matching a connection-loss signature clears
the connected flag and runs the connection-lost cleanup, so the manager ends
fully reset and subsequent reads fail fast with NotConnected; WRITE failures
are re-thrown without any state transition, signature match or not. -/
theorem read_loss_forces_fault (env : Env) (s : ManagerState) (nodeId : String)
    (m : String) (hc : s.isConnected = true) (hs : s.hasSession = true)
    (hr : env.readRes nodeId = Except.error m) (hsig : connectionLossSig m = true) :
    (readVariable env nodeId s).1 = Except.error m ∧
    (readVariable env nodeId s).2 = emptyDisconnected ∧
    (∀ env2 n2, (readVariable env2 n2 (readVariable env nodeId s).2).1 =
        Except.error notConnectedMsg) ∧
    (∀ n2 v dt m2, env.writeRes n2 = Except.error m2 →
        writeVariable env n2 v dt s = (Except.error m2, s)) := by
  have h2 : (readVariable env nodeId s).2 = emptyDisconnected := by
    simp [readVariable, hc, hs, hr, hsig, handleConnectionLost, cleanup_fst_eq]
  refine ⟨?_, h2, ?_, ?_⟩
  · simp [readVariable, hc, hs, hr, hsig]
  · intro env2 n2
    rw [h2]
    simp [readVariable, emptyDisconnected]
  · intro n2 v dt m2 hw
    simp [writeVariable, hc, hs, hw]

/-- Witness for the amended C9: a concrete session-closed read error tears
the connection down and a subsequent read fails with NotConnected. -/
theorem read_loss_forces_fault_witness :
    stConn.isConnected = true ∧ stConn.hasSession = true ∧
    envReadClosed.readRes "n1" = Except.error "BadSessionClosed (0x80260000)" ∧
    connectionLossSig "BadSessionClosed (0x80260000)" = true ∧
    ((readVariable envReadClosed "n1" stConn).1 =
        Except.error "BadSessionClosed (0x80260000)" ∧
     (readVariable envReadClosed "n1" stConn).2 = emptyDisconnected ∧
     (∀ env2 n2, (readVariable env2 n2 (readVariable envReadClosed "n1" stConn).2).1 =
         Except.error notConnectedMsg) ∧
     (∀ n2 v dt m2, envReadClosed.writeRes n2 = Except.error m2 →
         writeVariable envReadClosed n2 v dt stConn = (Except.error m2, stConn))) :=
  ⟨rfl, rfl, rfl, by decide,
   read_loss_forces_fault envReadClosed stConn "n1" "BadSessionClosed (0x80260000)"
     rfl rfl rfl (by decide)⟩

end OpcuaClient
